import Mathlib

/-!
Verification of the url_shortener repository's core logic: the Postgres-backed
store (`internal/storage/postgres/postgres.go`), the redirect/lookup handler
(`internal/http-server/handlers/redirect/redirect.go`) and the save service,
shallowly embedded as pure Lean functions over an explicit store state and
explicit cache-interaction outcomes.
-/

deriving instance DecidableEq for Except

namespace UrlShortener

/-- Sentinel errors of the `storage` package (`ErrURLNotFound`, `ErrURLExists`)
plus a catch-all for any other wrapped persistence error. -/
inductive StorageErr where
  | urlNotFound
  | urlExists
  | other (msg : String)
deriving DecidableEq, Repr

/-- A `*pq.Error` as the postgres driver reports it: only the SQLSTATE code
matters to `SaveURL` (`"23505"` is unique_violation). -/
structure PqError where
  code : String
deriving DecidableEq, Repr

/-- State of the `url` table: rows `(id, alias, url)` plus the SERIAL
counter for the next id. The schema declares `alias TEXT NOT NULL UNIQUE`. -/
structure DB where
  rows : List (Nat × String × String)
  nextId : Nat
deriving DecidableEq, Repr

def DB.empty : DB := ⟨[], 1⟩

/-- Whether some row already carries this alias (the unique constraint's view). -/
def DB.hasAlias (db : DB) (a : String) : Bool :=
  db.rows.any (fun r => r.2.1 == a)

/-- The `INSERT INTO url(url, alias) VALUES($1, $2) RETURNING id` statement
against a table with a unique constraint on `alias`: the insert itself fails
with SQLSTATE 23505 when the alias is present — there is no pre-check. -/
def dbInsert (db : DB) (urlToSave a : String) : Except PqError (Nat × DB) :=
  if db.hasAlias a then
    .error ⟨"23505"⟩
  else
    .ok (db.nextId, ⟨db.rows ++ [(db.nextId, a, urlToSave)], db.nextId + 1⟩)

/-- `Storage.SaveURL` from `postgres.go`: runs the insert and maps a pq error
with code `"23505"` (unique_violation) to `storage.ErrURLExists`; any other
driver error is wrapped and surfaced as-is. -/
def SaveURL (db : DB) (urlToSave a : String) : Except StorageErr (Nat × DB) :=
  match dbInsert db urlToSave a with
  | .ok (id, db') => .ok (id, db')
  | .error pqErr =>
      if pqErr.code == "23505" then .error .urlExists
      else .error (.other pqErr.code)

/-- `Storage.GetURL` from `postgres.go`: `SELECT url FROM url WHERE alias = $1`;
`sql.ErrNoRows` becomes `storage.ErrURLNotFound`. -/
def GetURL (db : DB) (a : String) : Except StorageErr String :=
  match db.rows.find? (fun r => r.2.1 == a) with
  | some r => .ok r.2.2
  | none => .error .urlNotFound

/-- Outcome of `urlCache.Get` when it fails: `redis.Nil` (a miss) or any other
connectivity/internal redis error. -/
inductive CacheErr where
  | redisNil
  | internal (msg : String)
deriving DecidableEq, Repr

/-- The responses the redirect handler can write. `render.JSON` never receives
a status via `render.Status`, so it writes the net/http default, 200, together
with the `resp.Error(msg)` body; `http.NotFound` writes 404; `http.Redirect`
writes the given status (`http.StatusFound` = 302) and Location URL. -/
inductive HResp where
  | json (status : Nat) (errMsg : String)
  | notFound
  | redirect (status : Nat) (url : String)
deriving DecidableEq, Repr

/-- `5 * time.Minute`, in seconds: the fixed TTL passed to `urlCache.Set`. -/
def cacheTTLSeconds : Nat := 5 * 60

/-- What one run of the redirect handler did: the response written, whether
`urlGetter.GetURL` was called, the `urlCache.Set` calls `(key, value, ttl)`
it issued, and which error logs it emitted. -/
structure RedirectTrace where
  resp : HResp
  storeAccessed : Bool
  cacheWrites : List (String × String × Nat)
  loggedCacheGetError : Bool
  loggedCacheSetError : Bool
deriving DecidableEq, Repr

/-- The static-asset filter of `redirect.New`: Go takes `path[len(path)-4:]`,
exactly the last four bytes, and compares it to each extension literal. The
`".js"` comparison is against a three-character literal and so can never hold.
(Paths here are ASCII, so byte and character indexing agree.) -/
def staticExtFiltered (path : String) : Bool :=
  if path.length > 4 then
    let ext := path.drop (path.length - 4)
    ext == ".css" || ext == ".js" || ext == ".png" || ext == ".jpg" || ext == ".ico"
  else
    false

/-- The handler returned by `redirect.New`, embedded over one request. The
handler is written against the `URLGetter` and `URLCache` interfaces, so the
collaborators' outcomes are inputs: `path` is `r.URL.Path`; `a` is
`chi.URLParam(r, "alias")`; `cacheGet` is what `urlCache.Get(ctx, alias)`
returns; `storeGet` is what `urlGetter.GetURL(alias)` returns (for the
Postgres store, `GetURL db a`); `cacheSetErr` is what `urlCache.Set` returns
if called. Control flow mirrors `redirect.go` top to bottom: empty-alias
guard, static-extension filter, cache-first read (any cache error falls
through, a non-`redis.Nil` error additionally logged), store read with
`errors.Is(err, storage.ErrURLNotFound)` special-cased, best-effort cache
write-back, 302 redirect. -/
def redirectNew (path a : String) (cacheGet : Except CacheErr String)
    (storeGet : Except StorageErr String)
    (cacheSetErr : Option CacheErr) : RedirectTrace :=
  if a == "" then
    ⟨.json 200 "invalid request", false, [], false, false⟩
  else if staticExtFiltered path then
    ⟨.notFound, false, [], false, false⟩
  else
    match cacheGet with
    | .ok resURL =>
        ⟨.redirect 302 resURL, false, [], false, false⟩
    | .error cerr =>
        let loggedGet := cerr != .redisNil
        match storeGet with
        | .error .urlNotFound =>
            ⟨.json 200 "not found", true, [], loggedGet, false⟩
        | .error _ =>
            ⟨.json 200 "internal error", true, [], loggedGet, false⟩
        | .ok resURL =>
            ⟨.redirect 302 resURL, true, [(a, resURL, cacheTTLSeconds)],
              loggedGet, cacheSetErr.isSome⟩

/-- Response of the save handler: HTTP status, the alias on success, the
error message otherwise. -/
structure SaveResp where
  status : Nat
  aliasOut : Option String
  errMsg : Option String
deriving DecidableEq, Repr

/-- What one run of the save handler did: response, resulting store state,
`urlCache.Set` calls issued, whether the store was called, and whether a cache
write failure was logged. -/
structure SaveTrace where
  resp : SaveResp
  dbOut : DB
  cacheWrites : List (String × String × Nat)
  storeCalled : Bool
  loggedCacheSetError : Bool
deriving DecidableEq, Repr

/-- Modelled from the spec: the save handler `save.New` is not among the
source files (only `save_test.go` is), so this follows spec §4.4, with the
messages and status codes the tests fix. Steps: validate (`url` required,
then well-formed per the validator, abstracted as `isValidURL`) with no side
effects on failure; use the generated alias when the caller supplied none;
call the store's `SaveURL`, mapping `ErrURLExists` to 409
`"url already exists"` and any other store error to 500 `"failed to add url"`;
on success best-effort `Set` the mapping into the cache under the chosen alias
with the fixed TTL (failure logged only) and answer 200 with the alias. -/
def saveNew (isValidURL : String → Bool) (reqURL reqAlias genAlias : String)
    (db : DB) (cacheSetErr : Option CacheErr) : SaveTrace :=
  if reqURL == "" then
    ⟨⟨400, none, some "field URL is a required field"⟩, db, [], false, false⟩
  else if !(isValidURL reqURL) then
    ⟨⟨400, none, some "field URL is not a valid URL"⟩, db, [], false, false⟩
  else
    let a := if reqAlias == "" then genAlias else reqAlias
    match SaveURL db reqURL a with
    | .error .urlExists =>
        ⟨⟨409, none, some "url already exists"⟩, db, [], true, false⟩
    | .error _ =>
        ⟨⟨500, none, some "failed to add url"⟩, db, [], true, false⟩
    | .ok (_, db1) =>
        ⟨⟨200, some a, none⟩, db1, [(a, reqURL, cacheTTLSeconds)], true,
          cacheSetErr.isSome⟩

/-! ### Helper lemmas about the store -/

theorem find?_append_fresh (rows : List (Nat × String × String)) (n : Nat)
    (url a : String) (h : rows.any (fun r => r.2.1 == a) = false) :
    (rows ++ [(n, a, url)]).find? (fun r => r.2.1 == a) = some (n, a, url) := by
  induction rows with
  | nil => simp [List.find?]
  | cons x xs ih =>
    simp only [List.any_cons, Bool.or_eq_false_iff] at h
    rw [List.cons_append, List.find?_cons_of_neg _ (by simp [h.1])]
    exact ih h.2

theorem getURL_after_fresh_insert (db : DB) (url a : String)
    (h : db.hasAlias a = false) :
    GetURL ⟨db.rows ++ [(db.nextId, a, url)], db.nextId + 1⟩ a = .ok url := by
  unfold GetURL
  rw [show (⟨db.rows ++ [(db.nextId, a, url)], db.nextId + 1⟩ : DB).rows =
        db.rows ++ [(db.nextId, a, url)] from rfl,
    find?_append_fresh db.rows db.nextId url a h]

theorem saveURL_fresh (db : DB) (url a : String) (h : db.hasAlias a = false) :
    SaveURL db url a =
      .ok (db.nextId, ⟨db.rows ++ [(db.nextId, a, url)], db.nextId + 1⟩) := by
  simp [SaveURL, dbInsert, h]

theorem hasAlias_of_getURL (db : DB) (a url0 : String)
    (h : GetURL db a = .ok url0) : db.hasAlias a = true := by
  unfold GetURL at h
  cases hf : db.rows.find? (fun r => r.2.1 == a) with
  | none => rw [hf] at h; exact absurd h (by simp)
  | some r =>
    exact List.any_eq_true.mpr
      ⟨r, List.mem_of_find?_eq_some hf,
        @List.find?_some _ (fun r => r.2.1 == a) r db.rows hf⟩

/-! ### Claim theorems -/

/-- C1, counterexample: the claim quantifies over EVERY unused alias, but an
alias whose path form ends in a filtered static extension is answered 404 by
the redirect path even after a successful save. Concretely, after
`SaveURL "https://example.com" "a.css"` succeeds, `GET /a.css` with a cache
miss is answered `http.NotFound`, not a redirect to the saved URL. -/
theorem c1_counterexample :
    SaveURL DB.empty "https://example.com" "a.css" =
      .ok (1, ⟨[(1, "a.css", "https://example.com")], 2⟩) ∧
    (redirectNew "/a.css" "a.css" (.error .redisNil)
        (GetURL ⟨[(1, "a.css", "https://example.com")], 2⟩ "a.css")
        none).resp ≠ .redirect 302 "https://example.com" := by
  decide

/-- C1, amended: for every URL and every nonempty alias that is not yet in
the store and whose path `/alias` does not end in a filtered static-asset
extension, `SaveURL` succeeds and the redirect path on a cache miss (or any
cache error) answers a 302 redirect to exactly the saved URL. -/
theorem c1_save_then_resolve_roundtrip (db : DB) (url a : String)
    (e : CacheErr) (setErr : Option CacheErr)
    (hfresh : db.hasAlias a = false) (hne : a ≠ "")
    (hstatic : staticExtFiltered ("/" ++ a) = false) :
    ∃ id db', SaveURL db url a = .ok (id, db') ∧
      (redirectNew ("/" ++ a) a (.error e) (GetURL db' a) setErr).resp =
        .redirect 302 url := by
  refine ⟨db.nextId, ⟨db.rows ++ [(db.nextId, a, url)], db.nextId + 1⟩,
    saveURL_fresh db url a hfresh, ?_⟩
  have hget := getURL_after_fresh_insert db url a hfresh
  simp [redirectNew, hne, hstatic, hget]

/-- Witness for C1's amended theorem at `url = "https://example.com"`,
`a = "abc"` on the empty store. -/
theorem c1_save_then_resolve_roundtrip_witness :
    ∃ id db', SaveURL DB.empty "https://example.com" "abc" = .ok (id, db') ∧
      (redirectNew ("/" ++ "abc") "abc" (.error .redisNil) (GetURL db' "abc")
          none).resp = .redirect 302 "https://example.com" :=
  c1_save_then_resolve_roundtrip DB.empty "https://example.com" "abc"
    .redisNil none (by decide) (by decide) (by decide)

/-- C2: with `(a, url0)` already stored, a second save of alias `a` (any URL)
fails inside the insert itself with SQLSTATE 23505 (no pre-check), `SaveURL`
maps that to `ErrURLExists`, the save handler answers 409
`"url already exists"`, and the store is unchanged with the first mapping
still resolving to `url0`. -/
theorem c2_duplicate_alias_conflict (db : DB) (url0 url a genA : String)
    (valid : String → Bool) (setErr : Option CacheErr)
    (h0 : GetURL db a = .ok url0) (hurl : url ≠ "") (hv : valid url = true)
    (ha : a ≠ "") :
    dbInsert db url a = .error ⟨"23505"⟩ ∧
    SaveURL db url a = .error .urlExists ∧
    (saveNew valid url a genA db setErr).resp =
      ⟨409, none, some "url already exists"⟩ ∧
    (saveNew valid url a genA db setErr).dbOut = db ∧
    GetURL (saveNew valid url a genA db setErr).dbOut a = .ok url0 := by
  have hex : db.hasAlias a = true := hasAlias_of_getURL db a url0 h0
  have hins : dbInsert db url a = .error ⟨"23505"⟩ := by
    simp [dbInsert, hex]
  have hsave : SaveURL db url a = .error .urlExists := by
    simp [SaveURL, hins]
  have hsn : saveNew valid url a genA db setErr =
      ⟨⟨409, none, some "url already exists"⟩, db, [], true, false⟩ := by
    simp [saveNew, hurl, hv, ha, hsave]
  exact ⟨hins, hsave, by rw [hsn], by rw [hsn], by rw [hsn]; exact h0⟩

/-- Witness for C2 on a store holding `("abc", "https://example.com")`,
re-saving alias `"abc"` with a different URL. -/
theorem c2_duplicate_alias_conflict_witness :
    dbInsert ⟨[(1, "abc", "https://example.com")], 2⟩ "https://other.example"
        "abc" = .error ⟨"23505"⟩ ∧
    SaveURL ⟨[(1, "abc", "https://example.com")], 2⟩ "https://other.example"
        "abc" = .error .urlExists ∧
    (saveNew (fun _ => true) "https://other.example" "abc" "gen"
        ⟨[(1, "abc", "https://example.com")], 2⟩ none).resp =
      ⟨409, none, some "url already exists"⟩ ∧
    (saveNew (fun _ => true) "https://other.example" "abc" "gen"
        ⟨[(1, "abc", "https://example.com")], 2⟩ none).dbOut =
      ⟨[(1, "abc", "https://example.com")], 2⟩ ∧
    GetURL (saveNew (fun _ => true) "https://other.example" "abc" "gen"
        ⟨[(1, "abc", "https://example.com")], 2⟩ none).dbOut "abc" =
      .ok "https://example.com" :=
  c2_duplicate_alias_conflict ⟨[(1, "abc", "https://example.com")], 2⟩
    "https://example.com" "https://other.example" "abc" "gen"
    (fun _ => true) none (by decide) (by decide) (by decide) (by decide)

/-- C3: for a never-saved alias the store does return `ErrURLNotFound`, but
the handler answers it with `render.JSON(resp.Error("not found"))` and never
sets a status, so the HTTP response is 200 with the error body — not the 404
the claim states. -/
theorem c3_not_found_responds_200 :
    GetURL DB.empty "never-saved" = .error .urlNotFound ∧
    (redirectNew "/never-saved" "never-saved" (.error .redisNil)
        (GetURL DB.empty "never-saved") none).resp =
      .json 200 "not found" := by
  decide

/-- C4: the static-extension filter compares exactly the last four characters
of the path to each literal, so the three-character literal `".js"` can never
match: `GET /a.js` is not filtered, the alias lookup runs against cache and
store, and with `"a.js"` stored the response is a 302 redirect with a cache
write-back — not a not-found answered without lookup. -/
theorem c4_js_path_not_filtered :
    staticExtFiltered "/a.js" = false ∧
    staticExtFiltered "/a.css" = true ∧
    redirectNew "/a.js" "a.js" (.error .redisNil)
        (.ok "https://example.com") none =
      ⟨.redirect 302 "https://example.com", true,
        [("a.js", "https://example.com", cacheTTLSeconds)], false, false⟩ := by
  decide

/-- C5: on a cache hit the handler immediately answers a 302 redirect to the
cached value, with no store access, no cache write, and nothing logged. -/
theorem c5_cache_hit_hot_path (path a url : String)
    (storeGet : Except StorageErr String) (setErr : Option CacheErr)
    (ha : a ≠ "") (hs : staticExtFiltered path = false) :
    redirectNew path a (.ok url) storeGet setErr =
      ⟨.redirect 302 url, false, [], false, false⟩ := by
  simp [redirectNew, ha, hs]

/-- Witness for C5 at alias `"abc"`, cached value `"https://example.com"`. -/
theorem c5_cache_hit_hot_path_witness :
    redirectNew "/abc" "abc" (.ok "https://example.com")
        (.error .urlNotFound) none =
      ⟨.redirect 302 "https://example.com", false, [], false, false⟩ :=
  c5_cache_hit_hot_path "/abc" "abc" "https://example.com"
    (.error .urlNotFound) none (by decide) (by decide)

/-- C6: every cache `Get` outcome that is not a hit — `redis.Nil` or any other
cache error — falls through to the store, and the response is exactly the one
the store outcome dictates, independent of which cache error occurred: no
cache failure becomes a user-visible error. -/
theorem c6_cache_error_never_escalated (path a : String) (e : CacheErr)
    (storeGet : Except StorageErr String) (setErr : Option CacheErr)
    (ha : a ≠ "") (hs : staticExtFiltered path = false) :
    (redirectNew path a (.error e) storeGet setErr).storeAccessed = true ∧
    (redirectNew path a (.error e) storeGet setErr).resp =
      (redirectNew path a (.error .redisNil) storeGet setErr).resp := by
  cases storeGet with
  | ok u => exact ⟨by simp [redirectNew, ha, hs], by simp [redirectNew, ha, hs]⟩
  | error se =>
    cases se <;>
      exact ⟨by simp [redirectNew, ha, hs], by simp [redirectNew, ha, hs]⟩

/-- Witness for C6 with an internal cache fault and a store holding no row. -/
theorem c6_cache_error_never_escalated_witness :
    (redirectNew "/abc" "abc" (.error (.internal "connection refused"))
        (.error .urlNotFound) none).storeAccessed = true ∧
    (redirectNew "/abc" "abc" (.error (.internal "connection refused"))
        (.error .urlNotFound) none).resp =
      (redirectNew "/abc" "abc" (.error .redisNil)
          (.error .urlNotFound) none).resp :=
  c6_cache_error_never_escalated "/abc" "abc" (.internal "connection refused")
    (.error .urlNotFound) none (by decide) (by decide)

/-- C7, counterexample: on a non-miss cache error (here an internal redis
fault) the handler still calls the store and produces exactly the same
response and cache write-back as a `redis.Nil` miss — it IS treated as a
miss (merely with an extra log line), contrary to the claim that only
`ErrMiss` takes the fall-through path. -/
theorem c7_counterexample :
    (redirectNew "/abc" "abc" (.error (.internal "connection refused"))
        (.ok "https://example.com") none).storeAccessed = true ∧
    (redirectNew "/abc" "abc" (.error (.internal "connection refused"))
        (.ok "https://example.com") none).resp =
      (redirectNew "/abc" "abc" (.error .redisNil)
          (.ok "https://example.com") none).resp ∧
    (redirectNew "/abc" "abc" (.error (.internal "connection refused"))
        (.ok "https://example.com") none).cacheWrites =
      (redirectNew "/abc" "abc" (.error .redisNil)
          (.ok "https://example.com") none).cacheWrites := by
  decide

/-- C7, amended: only a `redis.Nil` miss falls through silently; any other
cache error is logged, but is then treated exactly like a miss — the handler
still falls through to the store and the response and cache writes are the
same as for a miss. -/
theorem c7_nonmiss_logged_but_same_fallthrough (path a msg : String)
    (storeGet : Except StorageErr String) (setErr : Option CacheErr)
    (ha : a ≠ "") (hs : staticExtFiltered path = false) :
    (redirectNew path a (.error (.internal msg))
        storeGet setErr).loggedCacheGetError = true ∧
    (redirectNew path a (.error .redisNil)
        storeGet setErr).loggedCacheGetError = false ∧
    (redirectNew path a (.error (.internal msg)) storeGet setErr).storeAccessed
      = true ∧
    (redirectNew path a (.error (.internal msg)) storeGet setErr).resp =
      (redirectNew path a (.error .redisNil) storeGet setErr).resp ∧
    (redirectNew path a (.error (.internal msg)) storeGet setErr).cacheWrites =
      (redirectNew path a (.error .redisNil) storeGet setErr).cacheWrites := by
  cases storeGet with
  | ok u =>
    refine ⟨?_, ?_, ?_, ?_, ?_⟩ <;> simp [redirectNew, ha, hs]
  | error se =>
    cases se <;> (refine ⟨?_, ?_, ?_, ?_, ?_⟩ <;> simp [redirectNew, ha, hs])

/-- Witness for C7's amended theorem with an internal cache fault and a
stored URL. -/
theorem c7_nonmiss_logged_but_same_fallthrough_witness :
    (redirectNew "/abc" "abc" (.error (.internal "timeout"))
        (.ok "https://example.com") none).loggedCacheGetError = true ∧
    (redirectNew "/abc" "abc" (.error .redisNil)
        (.ok "https://example.com") none).loggedCacheGetError = false ∧
    (redirectNew "/abc" "abc" (.error (.internal "timeout"))
        (.ok "https://example.com") none).storeAccessed = true ∧
    (redirectNew "/abc" "abc" (.error (.internal "timeout"))
        (.ok "https://example.com") none).resp =
      (redirectNew "/abc" "abc" (.error .redisNil)
          (.ok "https://example.com") none).resp ∧
    (redirectNew "/abc" "abc" (.error (.internal "timeout"))
        (.ok "https://example.com") none).cacheWrites =
      (redirectNew "/abc" "abc" (.error .redisNil)
          (.ok "https://example.com") none).cacheWrites :=
  c7_nonmiss_logged_but_same_fallthrough "/abc" "abc" "timeout"
    (.ok "https://example.com") none (by decide) (by decide)

/-- C8: when the cache missed (or erred) and the store returns a URL, the
handler writes exactly `(alias, url)` back into the cache with the fixed
5-minute TTL and answers a 302 redirect to the URL; a failing cache write is
logged and does not change the response. -/
theorem c8_writeback_with_ttl (path a url : String) (e : CacheErr)
    (setErr : Option CacheErr)
    (ha : a ≠ "") (hs : staticExtFiltered path = false) :
    (redirectNew path a (.error e) (.ok url) setErr).cacheWrites =
      [(a, url, cacheTTLSeconds)] ∧
    cacheTTLSeconds = 5 * 60 ∧
    (redirectNew path a (.error e) (.ok url) setErr).resp =
      .redirect 302 url ∧
    (redirectNew path a (.error e) (.ok url) setErr).loggedCacheSetError =
      setErr.isSome := by
  refine ⟨?_, rfl, ?_, ?_⟩ <;> simp [redirectNew, ha, hs]

/-- Witness for C8 with a failing cache write: the write-back is attempted
with the fixed TTL, the failure is logged, the response is still the 302. -/
theorem c8_writeback_with_ttl_witness :
    (redirectNew "/abc" "abc" (.error .redisNil) (.ok "https://example.com")
        (some (.internal "timeout"))).cacheWrites =
      [("abc", "https://example.com", cacheTTLSeconds)] ∧
    cacheTTLSeconds = 5 * 60 ∧
    (redirectNew "/abc" "abc" (.error .redisNil) (.ok "https://example.com")
        (some (.internal "timeout"))).resp =
      .redirect 302 "https://example.com" ∧
    (redirectNew "/abc" "abc" (.error .redisNil) (.ok "https://example.com")
        (some (.internal "timeout"))).loggedCacheSetError =
      (some (CacheErr.internal "timeout")).isSome :=
  c8_writeback_with_ttl "/abc" "abc" "https://example.com" .redisNil
    (some (.internal "timeout")) (by decide) (by decide)

/-- C9: a save request whose URL is empty or fails validation is answered 400
with the exact message the tests fix, and has no side effects: the store is
untouched, not even called, and no cache write happens. -/
theorem c9_validation_rejects_before_side_effects (valid : String → Bool)
    (reqURL reqAlias genA : String) (db : DB) (setErr : Option CacheErr)
    (h : reqURL = "" ∨ valid reqURL = false) :
    (saveNew valid reqURL reqAlias genA db setErr).resp.status = 400 ∧
    (saveNew valid reqURL reqAlias genA db setErr).resp.errMsg =
      some (if reqURL = "" then "field URL is a required field"
            else "field URL is not a valid URL") ∧
    (saveNew valid reqURL reqAlias genA db setErr).dbOut = db ∧
    (saveNew valid reqURL reqAlias genA db setErr).cacheWrites = [] ∧
    (saveNew valid reqURL reqAlias genA db setErr).storeCalled = false := by
  by_cases hu : reqURL = ""
  · refine ⟨?_, ?_, ?_, ?_, ?_⟩ <;> simp [saveNew, hu]
  · have hv : valid reqURL = false := h.resolve_left hu
    refine ⟨?_, ?_, ?_, ?_, ?_⟩ <;> simp [saveNew, hu, hv]

/-- Witness for C9 at the test's invalid input `"some invalid URL"` with a
rejecting validator. -/
theorem c9_validation_rejects_before_side_effects_witness :
    (saveNew (fun _ => false) "some invalid URL" "some_alias" "gen"
        DB.empty none).resp.status = 400 ∧
    (saveNew (fun _ => false) "some invalid URL" "some_alias" "gen"
        DB.empty none).resp.errMsg =
      some (if "some invalid URL" = "" then "field URL is a required field"
            else "field URL is not a valid URL") ∧
    (saveNew (fun _ => false) "some invalid URL" "some_alias" "gen"
        DB.empty none).dbOut = DB.empty ∧
    (saveNew (fun _ => false) "some invalid URL" "some_alias" "gen"
        DB.empty none).cacheWrites = [] ∧
    (saveNew (fun _ => false) "some invalid URL" "some_alias" "gen"
        DB.empty none).storeCalled = false :=
  c9_validation_rejects_before_side_effects (fun _ => false)
    "some invalid URL" "some_alias" "gen" DB.empty none (Or.inr rfl)

/-- C10: every cache write the redirect handler issues stores, under the
requested alias, exactly the URL the store returned for that alias, with the
fixed TTL — entries written on the lookup path always originate from the
store. -/
theorem c10_cache_writes_only_store_result (path a : String)
    (cacheGet : Except CacheErr String) (storeGet : Except StorageErr String)
    (setErr : Option CacheErr) (w : String × String × Nat)
    (hw : w ∈ (redirectNew path a cacheGet storeGet setErr).cacheWrites) :
    w.1 = a ∧ storeGet = .ok w.2.1 ∧ w.2.2 = cacheTTLSeconds := by
  by_cases h1 : a = ""
  · simp [redirectNew, h1] at hw
  · cases h2 : staticExtFiltered path with
    | true => simp [redirectNew, h1, h2] at hw
    | false =>
      cases cacheGet with
      | ok u => simp [redirectNew, h1, h2] at hw
      | error e =>
        cases storeGet with
        | error se => cases se <;> simp [redirectNew, h1, h2] at hw
        | ok u =>
          simp [redirectNew, h1, h2] at hw
          simp [hw]

/-- Witness for C10 at a concrete lookup whose write-back is the store's
result under the requested alias. -/
theorem c10_cache_writes_only_store_result_witness :
    (("abc", "https://example.com", cacheTTLSeconds) :
        String × String × Nat).1 = "abc" ∧
    (Except.ok "https://example.com" : Except StorageErr String) =
      .ok (("abc", "https://example.com", cacheTTLSeconds) :
        String × String × Nat).2.1 ∧
    (("abc", "https://example.com", cacheTTLSeconds) :
        String × String × Nat).2.2 = cacheTTLSeconds :=
  c10_cache_writes_only_store_result "/abc" "abc" (.error .redisNil)
    (.ok "https://example.com") none
    ("abc", "https://example.com", cacheTTLSeconds) (by decide)

end UrlShortener
